import Mathlib

/-
Verification development for the rpsls-dapp frontend (Rock-Paper-Scissors-
Lizard-Spock commit-reveal game).  The JavaScript sources under src/ are
shallowly embedded below: pure helpers from utils/hashHelpers.js become Lean
functions, and the validation / dispatch logic of the React event handlers
(GameCreation.handleCreateGame, GameJoin.handleJoinGame,
GameReveal.handleReveal and handleUploadSecret, GameStatus.loadGameState and
callTimeout) becomes explicit functions from their inputs to the action they
take (rejection message vs. the contract call they issue).  Machine numbers
(JS number / BigInt) are modelled as Int or Nat; byte strings as List Nat;
fallible paths as Option / Except.
-/

namespace RPSLS

/-- Embeds hashHelpers.uiMoveToContract: converts a UI move index (0-4) to
the contract move enum (1-5) by adding 1. -/
def uiMoveToContract (uiMove : Int) : Int := uiMove + 1

/-- Embeds hashHelpers.contractMoveToUI: converts a contract move enum (1-5)
to the UI index (0-4) by subtracting 1. -/
def contractMoveToUI (contractMove : Int) : Int := contractMove - 1

/-- Big-endian fixed-width byte encoding: `beBytes n x` is the `n`-byte
big-endian representation of `x % 256^n`, each byte a Nat below 256. -/
def beBytes : Nat → Nat → List Nat
  | 0, _ => []
  | n + 1, x => beBytes n (x / 256) ++ [x % 256]

/-- Embeds the preimage built by hashHelpers.createCommitment: ethers
AbiCoder.encode(["uint8", "uint256"], [m, s]), i.e. standard (non-packed)
ABI encoding, which left-pads BOTH values to 32 bytes, giving 64 bytes. -/
def abiEncodeUint8Uint256 (m s : Nat) : List Nat :=
  beBytes 32 m ++ beBytes 32 s

/-- Follows the words of the spec (refinement comparison): the commitment
preimage is the fixed-width concatenation of the 1-byte numeric move code and
the 32-byte big-endian representation of the secret - 33 bytes, the packed encoding
that keccak256(uint8, uint256) performs in Solidity 0.4.26. -/
def specPackedPreimage (m s : Nat) : List Nat :=
  beBytes 1 m ++ beBytes 32 s

/-- Embeds hashHelpers.createCommitment.  The hash itself (ethers.keccak256)
is an external primitive, so it is a parameter `keccak` from byte strings to
hash values; the function validates the move range, then hashes the ABI
encoding of (uint8 move, uint256 salt).  The salt is taken as its parsed
256-bit numeric value (the JS code parses the hex string with BigInt). -/
def createCommitment (keccak : List Nat → Nat) (moveIndex : Int) (saltVal : Nat) :
    Except String Nat :=
  if moveIndex < 1 ∨ moveIndex > 5 then
    .error "Move must be 1-5 (Rock, Paper, Scissors, Spock, Lizard)"
  else
    .ok (keccak (abiEncodeUint8Uint256 moveIndex.toNat saltVal))

/-- Helper: an Except value is an ok result. -/
def isOkE {ε α : Type} : Except ε α → Bool
  | .ok _ => true
  | .error _ => false

/-- The five-move game with the Null sentinel (code 0, "not yet played");
codes 1-5 are Rock, Paper, Scissors, Spock, Lizard, as listed in
hashHelpers.js and in the MOVES array of GameStatus.jsx. -/
inductive Move
  | Null
  | Rock
  | Paper
  | Scissors
  | Spock
  | Lizard
  deriving DecidableEq, Fintype

/-- Outcome of comparing two moves. -/
inductive Outcome
  | FirstWins
  | SecondWins
  | Tie
  deriving DecidableEq

/-- Modelled from the spec: the winner-determination logic lives in the RPS
contract, which is present in the repository only as compiled artifacts
(CONTRACT_ABI / CONTRACT_BYTECODE in utils/contractABI.js), so the dominance
set is taken from the table in the spec - Rock beats Scissors and Lizard, Paper
beats Rock and Spock, Scissors beats Paper and Lizard, Spock beats Rock and
Scissors, Lizard beats Paper and Spock - which matches the rules text
rendered by App.jsx.  `dominates a b` means move `a` beats move `b`. -/
def dominates : Move → Move → Bool
  | .Rock, .Scissors => true
  | .Rock, .Lizard => true
  | .Paper, .Rock => true
  | .Paper, .Spock => true
  | .Scissors, .Paper => true
  | .Scissors, .Lizard => true
  | .Spock, .Rock => true
  | .Spock, .Scissors => true
  | .Lizard, .Paper => true
  | .Lizard, .Spock => true
  | _, _ => false

/-- Modelled from the spec: `beats(a,b)`: if a==b then Tie, else if b is in
the dominance set of a then FirstWins, else SecondWins. -/
def beats (a b : Move) : Outcome :=
  if a = b then .Tie
  else if dominates a b then .FirstWins
  else .SecondWins

/-- The two timeout entry points of the RPS contract that the frontend can
invoke (GameStatus.jsx). -/
inductive TimeoutFn
  | j1Timeout
  | j2Timeout
  deriving DecidableEq

/-- Embeds GameStatus.loadGameState: `isTimedOut = timeSinceLastAction >
timeoutSeconds` where `timeSinceLastAction = currentTime - lastAction`. -/
def isTimedOutOf (now lastAction timeoutSec : Int) : Bool :=
  decide (now - lastAction > timeoutSec)

/-- Embeds the phase derivation of GameStatus.loadGameState (lines 49-68):
stake 0 means the game is completed; c2 = 0 (second move Null) means waiting
for Player 2 to join; otherwise waiting for Player 1 to reveal. -/
def phaseOf (stakeWei c2 : Nat) : String :=
  if stakeWei = 0 then "Game Completed (stake withdrawn)"
  else if c2 = 0 then "Waiting for Player 2 to join"
  else "Player 2 joined, waiting for Player 1 to reveal"

/-- Embeds the timeout-function selection of GameStatus.loadGameState: no
timeout is ever offered once stake is 0; while waiting for Player 2 to join
an elapsed clock offers j2Timeout; while waiting for the reveal an elapsed
clock offers j1Timeout. -/
def timeoutFunctionOf (stakeWei c2 : Nat) (isTimedOut : Bool) : Option TimeoutFn :=
  if stakeWei = 0 then none
  else if c2 = 0 then
    if isTimedOut then some .j2Timeout else none
  else
    if isTimedOut then some .j1Timeout else none

/-- Embeds the `canTimeout` flag of GameStatus.loadGameState: a timeout claim is
offered exactly when a timeout function was selected. -/
def canTimeoutOf (stakeWei c2 : Nat) (now lastAction timeoutSec : Int) : Bool :=
  (timeoutFunctionOf stakeWei c2 (isTimedOutOf now lastAction timeoutSec)).isSome

/-- Embeds the party gate of GameStatus.callTimeout: j1Timeout may only be
sent by Player 2 (isJ2), j2Timeout only by Player 1 (isJ1); otherwise the
call is aborted before any transaction is issued. -/
def callTimeoutAllowed (fn : TimeoutFn) (isJ1 isJ2 : Bool) : Bool :=
  match fn with
  | .j1Timeout => isJ2
  | .j2Timeout => isJ1

/-- State of one deployed RPS game contract as the frontend reads it back
(fields j1, j2, c1Hash, c2, stake, lastAction, TIMEOUT).  Party identifiers
are modelled as Nat address values: the JS code compares addresses after
lowercasing both sides, i.e. it compares the underlying address values. -/
structure RPSGame where
  j1 : Nat
  j2 : Nat
  c1Hash : String
  stake : Nat
  c2 : Nat
  lastAction : Nat
  timeoutSec : Nat
  deriving DecidableEq

/-- Modelled from the spec: the RPS contract constructor (the Solidity
source is not in the repository, only its ABI and bytecode) - deploying with
commitment `c1Hash`, opponent `j2` and the attached stake constructs the
instance with the second move still Null (c2 = 0), lastAction set to now,
and the fixed 5-minute (300 s) timeout interval. -/
def deployRPS (j1 : Nat) (c1Hash : String) (j2 : Nat) (stakeWei : Nat) (now : Nat) :
    RPSGame :=
  { j1 := j1, j2 := j2, c1Hash := c1Hash, stake := stakeWei, c2 := 0,
    lastAction := now, timeoutSec := 300 }

/-- Result of GameCreation.handleCreateGame: either an early rejection (an
alert, no transaction) or the deployment of a fresh game contract. -/
inductive CreateOutcome
  | rejected (msg : String)
  | deployed (g : RPSGame)
  deriving DecidableEq

/-- Helper: whether a creation attempt deployed a game instance. -/
def isDeployed : CreateOutcome → Bool
  | .deployed _ => true
  | .rejected _ => false

/-- Embeds GameCreation.handleCreateGame (lines 85-132): requires salt and
commitment to have been generated, a valid opponent address, a parseable
stake amount (`stakeWei = none` models parseEth throwing), and a counterpart
distinct from the signer; then deploys a new contract with the commitment,
the opponent and the stake.  There is no check that the stake is positive. -/
def handleCreateGame (saltStr commitmentStr : String) (opponent : Nat)
    (opponentValid : Bool) (stakeWei : Option Nat) (signer : Nat) (now : Nat) :
    CreateOutcome :=
  if saltStr = "" ∨ commitmentStr = "" then
    .rejected "Generate salt and save secret first!"
  else if opponentValid = false then
    .rejected "Please enter a valid opponent address!"
  else
    match stakeWei with
    | none => .rejected "Invalid ETH amount"
    | some w =>
      if opponent = signer then
        .rejected "You cannot play against yourself!"
      else
        .deployed (deployRPS signer commitmentStr opponent w now)

/-- The game info record GameJoin.loadGameInfo builds for the join screen. -/
structure GameInfo where
  j1 : Nat
  j2 : Nat
  stakeWei : Nat
  c2 : Nat
  lastAction : Nat
  isJ2 : Bool
  hasPlayed : Bool
  deriving DecidableEq

/-- Embeds GameJoin.loadGameInfo (lines 18-59): reads the contract fields and
derives `hasPlayed` (the second move is already non-Null) and `isJ2` (the
connected signer is the designated second mover). -/
def loadGameInfo (g : RPSGame) (signer : Nat) : GameInfo :=
  { j1 := g.j1, j2 := g.j2, stakeWei := g.stake, c2 := g.c2,
    lastAction := g.lastAction,
    isJ2 := decide (signer = g.j2),
    hasPlayed := decide (g.c2 ≠ 0) }

/-- Result of GameJoin.handleJoinGame: either an early rejection (an alert,
no transaction) or the payable play(move) call carrying the stake. -/
inductive JoinResult
  | rejected (msg : String)
  | playCall (move : Nat) (value : Nat)
  deriving DecidableEq

/-- Embeds GameJoin.handleJoinGame (lines 64-104).  The checks run in the
order the code uses: contract address validity, game info loaded, Player 2 already
played, caller is Player 2; only then is the payable play call with the
matching stake issued, with the UI move converted to the contract code. -/
def handleJoinGame (addrValid : Bool) (info : Option GameInfo) (uiMove : Nat) :
    JoinResult :=
  if addrValid = false then
    .rejected "Please enter a valid contract address!"
  else
    match info with
    | none => .rejected "Load game info first!"
    | some gi =>
      if gi.hasPlayed then .rejected "Player 2 has already played!"
      else if gi.isJ2 = false then .rejected "You are not player 2 of this game!"
      else .playCall (uiMove + 1) gi.stakeWei

/-- Escrowed total after a join attempt: a play call adds its attached value
to the escrow; a rejected attempt leaves the escrow unchanged. -/
def escrowAfterJoin (escrow : Nat) : JoinResult → Nat
  | .playCall _ v => escrow + v
  | .rejected _ => escrow

/-- Lowercase hex character of a value below 16: digits map to the code
points from 48 ('0'), values 10-15 to the code points from 97 ('a'). -/
def hexDigit (n : Nat) : Char :=
  if n < 10 then Char.ofNat (48 + n) else Char.ofNat (87 + n)

/-- Sixty-four lowercase hex characters rendering a 256-bit value, most significant
digit first. -/
def hexPad64 (n : Nat) : List Char :=
  (List.range 64).map (fun i => hexDigit (n / 16 ^ (63 - i) % 16))

/-- Embeds hashHelpers.generateSalt as a function of the 256-bit random value
drawn from ethers.randomBytes(32): ethers.hexlify renders it as "0x"
followed by 64 lowercase hex digits. -/
def generateSalt (randomVal : Nat) : String :=
  "0x" ++ String.mk (hexPad64 randomVal)

/-- The JSON record GameCreation.handleDownloadSecret writes to the secret
file: contract move code, move name, salt hex string, commitment hex string,
and an ISO-8601 creation timestamp. -/
structure SecretFile where
  move : Int
  moveName : String
  salt : String
  commitment : String
  createdAt : String
  deriving DecidableEq

/-- Move names in UI order (the MOVES array of GameCreation.jsx). -/
def movesList : List String := ["Rock", "Paper", "Scissors", "Spock", "Lizard"]

/-- Embeds GameCreation.handleDownloadSecret (lines 54-79): aborts when no
salt has been generated; otherwise writes the record with the UI move
converted to the contract code, the move name, the salt and commitment hex
strings held in component state, and the current ISO timestamp. -/
def handleDownloadSecret (uiMove : Int) (saltStr commitmentStr nowIso : String) :
    Option SecretFile :=
  if saltStr = "" then none
  else some
    { move := uiMoveToContract uiMove,
      moveName := movesList.getD uiMove.toNat "undefined",
      salt := saltStr, commitment := commitmentStr, createdAt := nowIso }

/-- The reveal-screen state that GameReveal.handleUploadSecret fills in from
an uploaded secret file: the move, the salt, and (when the file carries one)
the contract address. -/
structure RevealState where
  move : Int
  salt : String
  contractAddress : Option String
  deriving DecidableEq

/-- Embeds GameReveal.handleUploadSecret (lines 16-41): rejects the file when
its move field is falsy (0 or absent) or its salt field is empty; otherwise
restores the move and the salt into the reveal state (and the contract
address when present).  The commitment and createdAt fields of the file are
not read back. -/
def handleUploadSecret (f : SecretFile) (fileContractAddress : Option String) :
    Except String RevealState :=
  if f.move = 0 ∨ f.salt = "" then .error "Invalid secret file format"
  else .ok { move := f.move, salt := f.salt, contractAddress := fileContractAddress }

/-- Numeric value of a hex character, none for a non-hex character. -/
def hexVal (c : Char) : Option Nat :=
  if '0' ≤ c ∧ c ≤ '9' then some (c.toNat - 48)
  else if 'a' ≤ c ∧ c ≤ 'f' then some (c.toNat - 87)
  else if 'A' ≤ c ∧ c ≤ 'F' then some (c.toNat - 55)
  else none

/-- Accumulating base-16 parse of a character list; none on any non-hex
character. -/
def parseHexDigits : List Char → Nat → Option Nat
  | [], acc => some acc
  | c :: rest, acc =>
    match hexVal c with
    | none => none
    | some d => parseHexDigits rest (acc * 16 + d)

/-- Drops a leading "0x", as `salt.startsWith("0x") ? salt.slice(2) : salt`
does in GameReveal.handleReveal. -/
def strip0x : List Char → List Char
  | '0' :: 'x' :: rest => rest
  | l => l

/-- Embeds the salt conversion of GameReveal.handleReveal: BigInt("0x" ++
cleaned) over the salt with any leading "0x" removed; BigInt throws (none)
on an empty or non-hex digit string. -/
def parseSaltBigInt (s : String) : Option Nat :=
  match strip0x s.data with
  | [] => none
  | l => parseHexDigits l 0

/-- Result of GameReveal.handleReveal: either an early abort (an alert, no
transaction) or the solve(move, salt) call sent to the contract. -/
inductive RevealAction
  | noCall (msg : String)
  | solveCall (move : Int) (salt : Nat)
  deriving DecidableEq

/-- Embeds GameReveal.handleReveal (lines 68-135): validates the contract
address, a non-empty salt, the move range, parses the salt, re-checks the
move range, rejects a zero salt value, and only then issues the
solve(move, salt) transaction. -/
def handleReveal (addrValid : Bool) (move : Int) (salt : String) : RevealAction :=
  if addrValid = false then .noCall "Please enter a valid contract address!"
  else if salt = "" then .noCall "Please load your secret first!"
  else if move < 1 ∨ move > 5 then .noCall "Invalid move! Must be 1-5."
  else
    match parseSaltBigInt salt with
    | none => .noCall "Invalid salt format!"
    | some v =>
      if move < 1 ∨ move > 5 then .noCall "Invalid move value"
      else if v = 0 then .noCall "Invalid salt value"
      else .solveCall move v

/-- Helper: the generated salt string always renders as 0x followed by 64
hex digits, 66 characters in total. -/
theorem generateSalt_length (n : Nat) : (generateSalt n).length = 66 := by
  unfold generateSalt
  rw [String.length_append]
  simp [String.length, hexPad64]

/-- Helper: the generated salt string is never empty. -/
theorem generateSalt_ne_empty (n : Nat) : generateSalt n ≠ "" := by
  intro h
  have := congrArg String.length h
  rw [generateSalt_length] at this
  simp at this

/-- C1: createCommitment hashes the standard 64-byte ABI encoding of
(uint8 move, uint256 salt), in which the move is left-padded to 32 bytes -
not the 33-byte packed concatenation of the 1-byte move code and the
32-byte big-endian secret that the claim (and the comment inside the
function itself, describing keccak256 in Solidity 0.4.26) requires.  At
move 1 and the all-zero secret the two preimages are distinct byte strings
of lengths 64 and 33. -/
theorem createCommitment_hashes_abi_not_packed :
    (∀ keccak : List Nat → Nat, ∀ s : Nat,
      createCommitment keccak 1 s = .ok (keccak (abiEncodeUint8Uint256 1 s))) ∧
    (abiEncodeUint8Uint256 1 0).length = 64 ∧
    (specPackedPreimage 1 0).length = 33 ∧
    abiEncodeUint8Uint256 1 0 ≠ specPackedPreimage 1 0 :=
  ⟨fun _ _ => rfl, by decide, by decide, by decide⟩

/-- C2 counterexample: in the awaiting-reveal phase (stake nonzero, second
move already played) with the clock elapsed, the timeout claim the code
offers is named j1Timeout, not j2Timeout as the claim states; and the
operation named j2Timeout is gated on the caller being Player 1 (the first
mover), so a second mover (isJ1 false, isJ2 true) may not send it. -/
theorem timeout_names_cex :
    phaseOf 1 3 = "Player 2 joined, waiting for Player 1 to reveal" ∧
    timeoutFunctionOf 1 3 true = some .j1Timeout ∧
    TimeoutFn.j1Timeout ≠ TimeoutFn.j2Timeout ∧
    callTimeoutAllowed .j2Timeout false true = false ∧
    callTimeoutAllowed .j1Timeout false true = true := by decide

/-- C2 amended: the timeout claim valid only in the awaiting-reveal phase is
the operation named j1Timeout and the frontend lets only the second mover
send it, while j2Timeout is offered only in the awaiting-second-move phase
and only the first mover may send it. -/
theorem timeout_names_swapped :
    (∀ stakeWei c2 : Nat, ∀ t : Bool,
      (timeoutFunctionOf stakeWei c2 t = some .j1Timeout ↔
        stakeWei ≠ 0 ∧ c2 ≠ 0 ∧ t = true) ∧
      (timeoutFunctionOf stakeWei c2 t = some .j2Timeout ↔
        stakeWei ≠ 0 ∧ c2 = 0 ∧ t = true)) ∧
    (∀ isJ1 isJ2 : Bool, callTimeoutAllowed .j1Timeout isJ1 isJ2 = isJ2 ∧
      callTimeoutAllowed .j2Timeout isJ1 isJ2 = isJ1) := by
  constructor
  · intro s c2 t
    unfold timeoutFunctionOf
    by_cases hs : s = 0 <;> by_cases hc : c2 = 0 <;> cases t <;> simp [hs, hc]
  · intro a b
    exact ⟨rfl, rfl⟩

/-- C2 witness: the amended theorem instantiated in the awaiting-reveal
phase with the clock elapsed. -/
theorem timeout_names_swapped_witness :
    timeoutFunctionOf 1 3 true = some TimeoutFn.j1Timeout :=
  ((timeout_names_swapped.1 1 3 true).1).mpr ⟨by decide, by decide, rfl⟩

/-- C3: beats is a tie on the diagonal for non-Null moves, exactly one
direction wins for every pair of distinct non-Null moves, and the winning
direction follows the table Rock beats Scissors and Lizard, Paper beats
Rock and Spock, Scissors beats Paper and Lizard, Spock beats Rock and
Scissors, Lizard beats Paper and Spock. -/
theorem beats_table_total :
    (∀ a : Move, a ≠ .Null → beats a a = .Tie) ∧
    (∀ a b : Move, a ≠ .Null → b ≠ .Null → a ≠ b →
      (beats a b = .FirstWins ↔ ¬beats b a = .FirstWins)) ∧
    (beats .Rock .Scissors = .FirstWins ∧ beats .Rock .Lizard = .FirstWins ∧
      beats .Paper .Rock = .FirstWins ∧ beats .Paper .Spock = .FirstWins ∧
      beats .Scissors .Paper = .FirstWins ∧ beats .Scissors .Lizard = .FirstWins ∧
      beats .Spock .Rock = .FirstWins ∧ beats .Spock .Scissors = .FirstWins ∧
      beats .Lizard .Paper = .FirstWins ∧ beats .Lizard .Spock = .FirstWins) := by
  decide

/-- C3 witness: the diagonal and the exactly-one-winner property
instantiated at concrete moves. -/
theorem beats_table_total_witness :
    beats .Rock .Rock = .Tie ∧
    (beats .Rock .Paper = .FirstWins ↔ ¬beats .Paper .Rock = .FirstWins) :=
  ⟨beats_table_total.1 .Rock (by decide),
    beats_table_total.2.1 .Rock .Paper (by decide) (by decide) (by decide)⟩

/-- C4 counterexample: in a settled game (stake 0) the elapsed condition
now - lastActionTimestamp > timeoutInterval holds (1000 - 0 > 300) and yet
no timeout claim is offered, refuting the stated if-and-only-if. -/
theorem canTimeout_cex :
    canTimeoutOf 0 0 1000 0 300 = false ∧ ((1000 : Int) - 0 > 300) := by decide

/-- C4 amended: a timeout claim is offered if and only if the game is still
unsettled (stake nonzero) and now - lastActionTimestamp is strictly greater
than timeoutInterval; in particular, at or before
lastActionTimestamp + timeoutInterval no timeout is ever offered. -/
theorem canTimeout_iff (stakeWei c2 : Nat) (now lastAction timeoutSec : Int) :
    (canTimeoutOf stakeWei c2 now lastAction timeoutSec = true ↔
      stakeWei ≠ 0 ∧ now - lastAction > timeoutSec) ∧
    (now ≤ lastAction + timeoutSec →
      canTimeoutOf stakeWei c2 now lastAction timeoutSec = false) := by
  have hiff : canTimeoutOf stakeWei c2 now lastAction timeoutSec = true ↔
      stakeWei ≠ 0 ∧ now - lastAction > timeoutSec := by
    unfold canTimeoutOf timeoutFunctionOf isTimedOutOf
    by_cases hs : stakeWei = 0 <;> by_cases hc : c2 = 0 <;>
      by_cases ht : now - lastAction > timeoutSec <;> simp [hs, hc, ht]
  refine ⟨hiff, fun h => ?_⟩
  cases hb : canTimeoutOf stakeWei c2 now lastAction timeoutSec with
  | false => rfl
  | true => exact absurd (hiff.mp hb).2 (by omega)

/-- C4 witness: the amended theorem instantiated just after and just before
the deadline. -/
theorem canTimeout_iff_witness :
    canTimeoutOf 1 0 1000 0 300 = true ∧ canTimeoutOf 1 0 200 0 300 = false :=
  ⟨(canTimeout_iff 1 0 1000 0 300).1.mpr ⟨by decide, by decide⟩,
    (canTimeout_iff 1 0 200 0 300).2 (by decide)⟩

/-- C5: createCommitment throws (returns an error, producing no commitment)
for every move code below 1 - Null included - or above 5, and returns a
commitment value for every move code in 1..5. -/
theorem createCommitment_move_range (keccak : List Nat → Nat) (m : Int) (s : Nat) :
    ((m < 1 ∨ m > 5) → isOkE (createCommitment keccak m s) = false) ∧
    (1 ≤ m → m ≤ 5 → createCommitment keccak m s =
      .ok (keccak (abiEncodeUint8Uint256 m.toNat s))) := by
  constructor
  · intro h
    unfold createCommitment
    rw [if_pos h]
    rfl
  · intro h1 h5
    unfold createCommitment
    rw [if_neg (by omega)]

/-- C5 witness: rejection at the Null move 0 and success at move 3. -/
theorem createCommitment_move_range_witness :
    isOkE (createCommitment (fun _ => 0) 0 0) = false ∧
    createCommitment (fun _ => 0) 3 0 = .ok 0 :=
  ⟨(createCommitment_move_range (fun _ => 0) 0 0).1 (by decide),
    by simpa using (createCommitment_move_range (fun _ => 0) 3 0).2 (by decide) (by decide)⟩

/-- C6 counterexample: with salt and commitment generated, a valid opponent
(address 11) distinct from the signer (address 22), and a stake that parses
to 0 wei - not positive - the creation attempt is not rejected: it deploys
a game instance with stake 0. -/
theorem create_zero_stake_cex :
    handleCreateGame "s" "c" 11 true (some 0) 22 7 =
      .deployed (deployRPS 22 "c" 11 0 7) ∧
    isDeployed (handleCreateGame "s" "c" 11 true (some 0) 22 7) = true := by decide

/-- C6 amended: creation never deploys when the two party identifiers are
equal, and with well-formed inputs and distinct parties it deploys for any
stake amount, zero included - positivity of the stake is not checked.  The
deployed instance has its second move still Null and lastActionTimestamp
set to now, and whenever the stake is nonzero its derived phase is the
awaiting-second-move phase. -/
theorem create_checks_amended (saltStr commitmentStr : String) (opponent : Nat)
    (w : Nat) (signer : Nat) (now : Nat) :
    (∀ ov : Bool, ∀ stk : Option Nat,
      isDeployed (handleCreateGame saltStr commitmentStr signer ov stk signer now) = false) ∧
    (saltStr ≠ "" → commitmentStr ≠ "" → opponent ≠ signer →
      handleCreateGame saltStr commitmentStr opponent true (some w) signer now =
        .deployed (deployRPS signer commitmentStr opponent w now)) ∧
    (deployRPS signer commitmentStr opponent w now).c2 = 0 ∧
    (deployRPS signer commitmentStr opponent w now).lastAction = now ∧
    (w ≠ 0 → phaseOf w 0 = "Waiting for Player 2 to join") := by
  refine ⟨?_, ?_, rfl, rfl, ?_⟩
  · intro ov stk
    unfold handleCreateGame
    split
    · rfl
    · split
      · rfl
      · cases stk with
        | none => rfl
        | some v => simp [isDeployed]
  · intro h1 h2 h3
    simp [handleCreateGame, h1, h2, h3]
  · intro h
    simp [phaseOf, h]

/-- C6 witness: the amended theorem instantiated with equal parties, with
distinct parties at stake 5 wei, and with a nonzero stake for the phase. -/
theorem create_checks_amended_witness :
    isDeployed (handleCreateGame "s" "c" 22 true (some 5) 22 7) = false ∧
    handleCreateGame "s" "c" 11 true (some 5) 22 7 =
      .deployed (deployRPS 22 "c" 11 5 7) ∧
    phaseOf 5 0 = "Waiting for Player 2 to join" :=
  ⟨(create_checks_amended "s" "c" 11 5 22 7).1 true (some 5),
    (create_checks_amended "s" "c" 11 5 22 7).2.1 (by decide) (by decide) (by decide),
    (create_checks_amended "s" "c" 11 5 22 7).2.2.2.2 (by decide)⟩

/-- C7 counterexample: in a game whose second move is already played (c2 = 3)
loaded by a signer (address 5) who is not the designated second mover
(address 2), the join attempt is rejected with the already-played message,
not the wrong-party message the claim requires for every non-second-mover
caller. -/
theorem join_priority_cex :
    handleJoinGame true (some (loadGameInfo ⟨1, 2, "h", 100, 3, 0, 300⟩ 5)) 0 =
      .rejected "Player 2 has already played!" ∧
    (loadGameInfo ⟨1, 2, "h", 100, 3, 0, 300⟩ 5).isJ2 = false ∧
    "Player 2 has already played!" ≠ "You are not player 2 of this game!" := by decide

/-- C7 amended: a join attempt on a game whose second move is already
non-Null is rejected with the already-played message (this check runs
first), leaving the escrow unchanged; with the second move still Null a
caller other than the designated second mover is rejected with the
wrong-party message; and the payable play call is issued exactly when the
caller is the second mover and the second move is still Null. -/
theorem join_checks_amended (g : RPSGame) (signer : Nat) (uiMove : Nat) (escrow : Nat) :
    (g.c2 ≠ 0 →
      handleJoinGame true (some (loadGameInfo g signer)) uiMove =
        .rejected "Player 2 has already played!" ∧
      escrowAfterJoin escrow (handleJoinGame true (some (loadGameInfo g signer)) uiMove) =
        escrow) ∧
    (g.c2 = 0 → signer ≠ g.j2 →
      handleJoinGame true (some (loadGameInfo g signer)) uiMove =
        .rejected "You are not player 2 of this game!") ∧
    ((∃ m v, handleJoinGame true (some (loadGameInfo g signer)) uiMove = .playCall m v) ↔
      signer = g.j2 ∧ g.c2 = 0) := by
  by_cases hc : g.c2 = 0 <;> by_cases hj : signer = g.j2 <;>
    simp [handleJoinGame, loadGameInfo, escrowAfterJoin, hc, hj]

/-- C7 witness: the amended theorem instantiated on a joined game (second
call rejected, escrow unchanged), on a fresh game with a wrong caller, and
on a fresh game with the right caller. -/
theorem join_checks_amended_witness :
    (handleJoinGame true (some (loadGameInfo ⟨1, 2, "h", 100, 3, 0, 300⟩ 2)) 0 =
        .rejected "Player 2 has already played!" ∧
      escrowAfterJoin 200
        (handleJoinGame true (some (loadGameInfo ⟨1, 2, "h", 100, 3, 0, 300⟩ 2)) 0) = 200) ∧
    handleJoinGame true (some (loadGameInfo ⟨1, 2, "h", 100, 0, 0, 300⟩ 5)) 0 =
      .rejected "You are not player 2 of this game!" ∧
    (∃ m v, handleJoinGame true (some (loadGameInfo ⟨1, 2, "h", 100, 0, 0, 300⟩ 2)) 0 =
      .playCall m v) :=
  ⟨(join_checks_amended ⟨1, 2, "h", 100, 3, 0, 300⟩ 2 0 200).1 (by decide),
    (join_checks_amended ⟨1, 2, "h", 100, 0, 0, 300⟩ 5 0 0).2.1 rfl (by decide),
    (join_checks_amended ⟨1, 2, "h", 100, 0, 0, 300⟩ 2 0 0).2.2.mpr ⟨rfl, rfl⟩⟩

/-- C8 counterexample: the exported record does not carry a bare
64-hex-digit secret string - the salt field is the 0x-prefixed 66-character
rendering - and importing the exported record does not restore all four
fields: two exported records that differ only in their commitment and
createdAt fields import to identical reveal states, so those two fields are
lost on import. -/
theorem secret_file_cex :
    handleDownloadSecret 0 (generateSalt 5) "0xcc" "2026-01-01T00:00:00.000Z" =
      some { move := 1, moveName := "Rock", salt := generateSalt 5,
             commitment := "0xcc", createdAt := "2026-01-01T00:00:00.000Z" } ∧
    (generateSalt 5).length = 66 ∧ ¬(generateSalt 5).length = 64 ∧
    handleUploadSecret { move := 1, moveName := "Rock", salt := generateSalt 5,
                         commitment := "0xaa",
                         createdAt := "2026-01-01T00:00:00.000Z" } none =
      handleUploadSecret { move := 1, moveName := "Rock", salt := generateSalt 5,
                           commitment := "0xbb",
                           createdAt := "2026-02-02T00:00:00.000Z" } none ∧
    ("0xaa" : String) ≠ "0xbb" :=
  ⟨by decide, by decide, by decide, rfl, by decide⟩

/-- C8 amended: the export record holds the contract move code in 1..5, the
move name, the 0x-prefixed 64-hex-digit (66-character) salt string, the
commitment string and the ISO creation timestamp, and exporting then
importing restores the move code and the secret exactly as exported - the
commitment and createdAt fields are preserved in the file but not read back
at import. -/
theorem secret_roundtrip_amended (uiMove : Int) (s : Nat) (comm tIso : String)
    (h0 : 0 ≤ uiMove) (h4 : uiMove ≤ 4) :
    ∃ f : SecretFile,
      handleDownloadSecret uiMove (generateSalt s) comm tIso = some f ∧
      f.move = uiMove + 1 ∧ 1 ≤ f.move ∧ f.move ≤ 5 ∧
      f.salt = generateSalt s ∧ f.salt.length = 66 ∧
      f.commitment = comm ∧ f.createdAt = tIso ∧
      handleUploadSecret f none =
        .ok { move := uiMove + 1, salt := generateSalt s, contractAddress := none } := by
  refine ⟨{ move := uiMoveToContract uiMove,
            moveName := movesList.getD uiMove.toNat "undefined",
            salt := generateSalt s, commitment := comm, createdAt := tIso },
    ?_, rfl, ?_, ?_, rfl, generateSalt_length s, rfl, rfl, ?_⟩
  · unfold handleDownloadSecret
    rw [if_neg (generateSalt_ne_empty s)]
  · simp only [uiMoveToContract]
    omega
  · simp only [uiMoveToContract]
    omega
  · unfold handleUploadSecret
    rw [if_neg]
    · rfl
    · rintro (hm | hs)
      · simp only [uiMoveToContract] at hm
        omega
      · exact generateSalt_ne_empty s hs

/-- C8 witness: the amended round trip instantiated at UI move 0 and the
salt value 5. -/
theorem secret_roundtrip_amended_witness :
    ∃ f : SecretFile,
      handleDownloadSecret 0 (generateSalt 5) "0xcc" "t" = some f ∧
      f.move = 0 + 1 ∧ 1 ≤ f.move ∧ f.move ≤ 5 ∧
      f.salt = generateSalt 5 ∧ f.salt.length = 66 ∧
      f.commitment = "0xcc" ∧ f.createdAt = "t" ∧
      handleUploadSecret f none =
        .ok { move := 0 + 1, salt := generateSalt 5, contractAddress := none } :=
  secret_roundtrip_amended 0 5 "0xcc" "t" (by decide) (by decide)

/-- C9: whenever the salt string parses to the numeric value 0 (a legal
256-bit secret), handleReveal aborts before issuing the solve transaction -
it never performs a state-changing call for a zero secret. -/
theorem reveal_rejects_zero_salt (addrValid : Bool) (move : Int) (salt : String)
    (h : parseSaltBigInt salt = some 0) (m : Int) (v : Nat) :
    handleReveal addrValid move salt ≠ .solveCall m v := by
  unfold handleReveal
  rw [h]
  repeat' split
  all_goals simp_all

/-- C9 witness: the reveal of a zero salt written as 0x0 issues no solve
call. -/
theorem reveal_rejects_zero_salt_witness :
    handleReveal true 1 "0x0" ≠ RevealAction.solveCall 1 0 :=
  reveal_rejects_zero_salt true 1 "0x0" (by decide) 1 0

/-- C10: the UI/contract move conversions are mutually inverse on every
integer, and they map the UI index range 0..4 exactly onto the contract
move-code range 1..5. -/
theorem moveConversion_inverse :
    (∀ x : Int, contractMoveToUI (uiMoveToContract x) = x) ∧
    (∀ x : Int, uiMoveToContract (contractMoveToUI x) = x) ∧
    (∀ x : Int, (0 ≤ x ∧ x ≤ 4) ↔ (1 ≤ uiMoveToContract x ∧ uiMoveToContract x ≤ 5)) := by
  refine ⟨fun x => ?_, fun x => ?_, fun x => ?_⟩ <;>
    (simp [uiMoveToContract, contractMoveToUI]; try omega)

/-- C10 witness: the two inverses and the range map instantiated at 2. -/
theorem moveConversion_inverse_witness :
    contractMoveToUI (uiMoveToContract 2) = 2 ∧
    uiMoveToContract (contractMoveToUI 2) = 2 ∧
    (1 ≤ uiMoveToContract 2 ∧ uiMoveToContract 2 ≤ 5) :=
  ⟨moveConversion_inverse.1 2, moveConversion_inverse.2.1 2,
    (moveConversion_inverse.2.2 2).mp ⟨by decide, by decide⟩⟩

end RPSLS
